import Mathlib

/-!
Verification development for the `langgraph_research` workflow
(`module-4/studio/langgraph_research`): a shallow embedding in Lean 4 of the
node and router functions of the research graph, the interview sub-graph and
the error-envelope utilities, with theorems about their behaviour.

Python machine behaviour is modelled explicitly:
* `str.strip(chars)` (a character-set strip, not a prefix strip) is `pyStrip`;
* `str.split(sep)` is `String.splitOn`;
* the `in` substring test is `strContains`;
* `list[-2]` indexing, which raises `IndexError` on lists shorter than 2,
  is `pyIdxNeg2` returning `Option`;
* a function body that may raise is embedded as an `Except`-valued function,
  `Except.error` standing for an exception propagating out of the node;
* in-place mutation of dictionaries reachable through shared references is
  modelled, where a claim needs it, by an explicit heap of records addressed
  by natural numbers.

Opaque collaborators (the language model, prompt templates from `config.py`)
are parameters of the embedded nodes, following the repository's own
description of them as swappable functions behind narrow interfaces.
-/

namespace LGR

/-- Roles of a conversation message (system / human / ai). -/
inductive Role where
  | system
  | human
  | ai
deriving DecidableEq, Repr

/-- Modelled from the spec: a conversation message as used by the interview
sub-graph (`langchain_core` message objects are not under `src/`): a role, a
text content, and an optional speaker name tag (set to "expert" on answers). -/
structure Message where
  role : Role
  content : String
  name : Option String
deriving DecidableEq, Repr

/-- Worker for `pySplit`: scan the character list left to right, cutting at
each non-overlapping leftmost occurrence of the (non-empty) pattern `p`.
`fuel` bounds the recursion by the length of the scanned list. -/
def pySplitGo (p : List Char) : Nat → List Char → List Char → List (List Char)
  | _, [], acc => [acc.reverse]
  | 0, l, acc => [acc.reverse ++ l]
  | fuel + 1, c :: rest, acc =>
    if p.isPrefixOf (c :: rest) then
      acc.reverse :: pySplitGo p fuel (List.drop p.length (c :: rest)) []
    else
      pySplitGo p fuel rest (c :: acc)

/-- Python's `str.split(sep)` for a non-empty separator: the list of parts
between non-overlapping leftmost occurrences of `pat`; a string not containing
`pat` yields the one-element list of itself. -/
def pySplit (s pat : String) : List String :=
  (pySplitGo pat.toList s.toList.length s.toList []).map String.mk

/-- Python's substring test `pat in s` for a non-empty pattern, via the number
of parts `split` yields: `pat` occurs in `s` iff splitting on it gives more
than one part. -/
def strContains (s pat : String) : Bool :=
  (pySplit s pat).length != 1

/-- Python's `str.startswith(pat)`, on the underlying character lists. -/
def pyStartsWith (s pat : String) : Bool :=
  pat.toList.isPrefixOf s.toList

/-- Python's `str.strip(chars)`: remove the longest run of characters drawn
from `chars` at the start of the string and at its end. -/
def pyStrip (s : String) (chars : List Char) : String :=
  String.mk (((s.toList.dropWhile chars.contains).reverse.dropWhile chars.contains).reverse)

/-- The character set of the literal `"## Insights"`, the argument
`finalize_report` passes to `str.strip`. -/
def insChars : List Char := "## Insights".toList

/-- The stripping step of `finalize_report`
(`report_nodes.py` lines 71-73): `content.strip("## Insights")` is applied
only when `content.startswith("## Insights")`. -/
def stripInsights (c : String) : String :=
  if pyStartsWith c "## Insights" then pyStrip c insChars else c

/-- The outer-graph state fields read by `finalize_report`
(`ResearchGraphState`; its schema file `models/schemas.py` is not under
`src/`, the fields are the ones the node reads). -/
structure RState where
  introduction : String
  content : String
  conclusion : String
deriving Repr

/-- `finalize_report` (`report_nodes.py` lines 66-85): strips the leading
marker, splits off a sources block on the literal `"\n## Sources\n"` inside a
`try`/`except` (a split that does not yield exactly two parts raises on tuple
unpacking and is caught, leaving `sources = None` and `content` unchanged),
then concatenates introduction, body and conclusion with `"\n\n---\n\n"`
separators, appending the sources section only when one was extracted.
Returns the value stored under the `final_report` key. -/
def finalize_report (st : RState) : String :=
  let c1 := stripInsights st.content
  let bodySources : String × Option String :=
    if strContains c1 "## Sources" then
      match pySplit c1 "\n## Sources\n" with
      | [a, b] => (a, some b)
      | _ => (c1, none)
    else (c1, none)
  let fr := st.introduction ++ "\n\n---\n\n" ++ bodySources.1 ++ "\n\n---\n\n" ++ st.conclusion
  match bodySources.2 with
  | some s => fr ++ "\n\n## Sources\n" ++ s
  | none => fr

/-- Modelled from the spec: an analyst persona record (name, role,
affiliation, descriptive focus, synthesized persona text block); its schema
file `models/schemas.py` is not under `src/`. Immutable once created. -/
structure Analyst where
  name : String
  role : String
  affiliation : String
  description : String
  persona : String
deriving DecidableEq, Repr

/-- A Python error value as it flows through `except` blocks and the error
envelope: either an exception object (with its type name, message, and the
stack trace `traceback.format_exc()` would render) or a plain error string. -/
inductive PyErr where
  | exc (ty msg trace : String)
  | str (msg : String)
deriving DecidableEq, Repr

/-- The interview sub-graph state fields read by the embedded interview
nodes (`InterviewState`; its schema file `models/schemas.py` is not under
`src/`, the fields are the ones the nodes read: the analyst, the ordered
message list, the accumulated context strings, and the optional
`max_num_turns` entry read by `state.get('max_num_turns', 2)`). -/
structure InterviewState where
  analyst : Analyst
  messages : List Message
  context : List String
  max_num_turns : Option Nat
deriving Repr

/-- The count in `route_messages` (`interview_nodes.py` lines 103-105):
`len([m for m in messages if isinstance(m, AIMessage) and m.name == name])`,
the number of messages that are AI messages whose name tag equals `name`. -/
def num_responses (messages : List Message) (name : String) : Nat :=
  (messages.filter (fun m => m.role == Role.ai && m.name == some name)).length

/-- Python's `messages[-2]`: the second-to-last element, raising `IndexError`
(modelled by `none`) when the list has fewer than two elements. -/
def pyIdxNeg2 (l : List Message) : Option Message :=
  if l.length < 2 then none else l.get? (l.length - 2)

/-- `route_messages` (`interview_nodes.py` lines 96-118): returns
`save_interview` once the expert has answered `max_num_turns` times
(default 2), otherwise inspects `messages[-2]` for the literal termination
phrase. The `messages[-2]` access raises `IndexError` on lists shorter than
two; a raised exception is modelled by the result `none`. -/
def route_messages (st : InterviewState) (name : String) : Option String :=
  let messages := st.messages
  let maxTurns := st.max_num_turns.getD 2
  if num_responses messages name ≥ maxTurns then
    some "save_interview"
  else
    match pyIdxNeg2 messages with
    | none => none
    | some lastQuestion =>
      if strContains lastQuestion.content "Thank you so much for your help" then
        some "save_interview"
      else
        some "ask_question"

/-- The partial state update an interview node returns: here only the
`messages` key is ever set (a one-element list, merged by append). -/
structure IDelta where
  messages : List Message
deriving DecidableEq, Repr

/-- `generate_question` (`interview_nodes.py` lines 8-20): formats the
question instruction with the analyst persona (the prompt template from
`config.py` is the opaque parameter `qfmt`), invokes the opaque model `llm`
on the system message followed by the accumulated history, and returns the
resulting message as a `messages` delta. The body has no `try`/`except`: a
failure of the model call propagates out of the node (`Except.error`). -/
def generate_question (llm : List Message → Except PyErr Message)
    (qfmt : String → String) (st : InterviewState) : Except PyErr IDelta :=
  match llm ({ role := Role.system, content := qfmt st.analyst.persona, name := none } :: st.messages) with
  | Except.ok q => Except.ok { messages := [q] }
  | Except.error e => Except.error e

/-- The `context` mapping of an error record: either the default
`{"state_keys": list(state.keys())}` built when no context is supplied, or a
caller-provided mapping (kept opaque as a list of key strings). -/
inductive Ctx where
  | stateKeys (ks : List String)
  | given (ks : List String)
deriving DecidableEq, Repr

/-- The standardized error record built by `record_error`
(`error_handler.py` lines 48-61): always-present fields plus the optional
`stack_trace` and the recovery fields that `clear_error` / `record_recovery`
add later (absent is `none`). `time.time()` values are modelled as naturals
supplied by the caller. -/
structure ErrorInfo where
  error_type : String
  message : String
  node : String
  timestamp : Nat
  severity : String
  recovery_attempted : Bool
  context : Ctx
  stack_trace : Option String
  recovered : Option Bool
  recovery_timestamp : Option Nat
  recovery_method : Option String
  recovery_details : Option String
deriving DecidableEq, Repr

/-- The recovery record built by `record_recovery`
(`error_handler.py` lines 150-163): timestamp, method, success flag, optional
details, and the cross-referenced type/node of the current error when one is
present. -/
structure RecoveryInfo where
  timestamp : Nat
  method : String
  success : Bool
  details : Option String
  error_type : Option String
  error_node : Option String
deriving DecidableEq, Repr

/-- The slice of a state dictionary the error envelope reads: the `error`
key (outer `Option`: key present; inner: the value, which may be `None`), the
`error_history` key, and the full key list (for the default context). -/
structure EState where
  error : Option (Option ErrorInfo)
  error_history : Option (List ErrorInfo)
  keys : List String
deriving DecidableEq, Repr

/-- A partial state update (delta) returned by the error-envelope functions:
each field is `none` when the corresponding key is absent from the returned
dictionary. `error = some none` models the key present with value `None`. -/
structure EDelta where
  error : Option (Option ErrorInfo)
  error_history : Option (List ErrorInfo)
  recovery_info : Option RecoveryInfo
deriving DecidableEq, Repr

/-- Apply `error_history[-1][...] = ...` on a value copy: rebuild the list
with `f` applied to its last element. -/
def updateLast (f : ErrorInfo → ErrorInfo) : List ErrorInfo → List ErrorInfo
  | [] => []
  | [a] => [f a]
  | a :: b :: rest => a :: updateLast f (b :: rest)

/-- The `error_info` dictionary `record_error` builds
(`error_handler.py` lines 36-61): type name, message and stack trace for an
exception object, `"CustomError"` and no trace for a plain string; context
defaults to the state's key list. -/
def mkErrorInfo (st : EState) (error : PyErr) (node_name : String)
    (severity : String) (context : Option Ctx) (now : Nat) : ErrorInfo :=
  let tyMsgTrace : String × String × Option String :=
    match error with
    | PyErr.exc ty msg trace => (ty, msg, some trace)
    | PyErr.str msg => ("CustomError", msg, none)
  { error_type := tyMsgTrace.1
    message := tyMsgTrace.2.1
    node := node_name
    timestamp := now
    severity := severity
    recovery_attempted := false
    context :=
      match context with
      | none => Ctx.stateKeys st.keys
      | some c => c
    stack_trace := tyMsgTrace.2.2
    recovered := none
    recovery_timestamp := none
    recovery_method := none
    recovery_details := none }

/-- `record_error` (`error_handler.py` lines 13-78): builds an `ErrorInfo`
from the exception or message and returns `{"error": info}` plus — when
`add_to_history` — `{"error_history": history + [info]}` over the state's
history (`state.get("error_history", [])`). Logging is ignored. -/
def record_error (st : EState) (error : PyErr) (node_name : String)
    (severity : String) (context : Option Ctx) (add_to_history : Bool)
    (now : Nat) : EDelta :=
  let info := mkErrorInfo st error node_name severity context now
  { error := some (some info)
    error_history :=
      if add_to_history then some ((st.error_history.getD []) ++ [info]) else none
    recovery_info := none }

/-- `clear_error` (`error_handler.py` lines 80-103), value level: when
`mark_recovered` and the state's `error_history` is present and non-empty,
returns a delta whose `error_history` is the history with its last entry
marked `recovery_attempted = True`, `recovered = True`,
`recovery_timestamp = now`; otherwise returns the empty delta. The `error`
key itself is never part of the delta. -/
def clear_error (st : EState) (mark_recovered : Bool) (now : Nat) : EDelta :=
  match st.error_history with
  | some hist =>
    if mark_recovered && !hist.isEmpty then
      { error := none
        error_history := some (updateLast (fun e =>
            { e with recovery_attempted := true, recovered := some true,
                     recovery_timestamp := some now }) hist)
        recovery_info := none }
    else
      { error := none, error_history := none, recovery_info := none }
  | none => { error := none, error_history := none, recovery_info := none }

/-- `is_error_state` (`error_handler.py` lines 105-115):
`"error" in state and state["error"] is not None`. -/
def is_error_state (st : EState) : Bool :=
  match st.error with
  | some (some _) => true
  | _ => false

/-- `get_error_severity` (`error_handler.py` lines 117-129): `None` when the
state holds no error, otherwise the error's severity. -/
def get_error_severity (st : EState) : Option String :=
  match st.error with
  | some (some e) => some e.severity
  | _ => none

/-- `record_recovery` (`error_handler.py` lines 132-181): builds a recovery
record (cross-referencing the current error's type and node when `error` is
present and non-`None`), marks the last `error_history` entry
`recovery_attempted = True`, `recovered = success` with method, timestamp and
— only when `details` is a truthy (non-empty) string — details, and, only
when `success`, puts `error = None` into the returned delta. -/
def record_recovery (st : EState) (recovery_method : String) (success : Bool)
    (details : Option String) (now : Nat) : EDelta :=
  let curErr : Option ErrorInfo :=
    match st.error with
    | some (some e) => some e
    | _ => none
  let rinfo : RecoveryInfo :=
    { timestamp := now
      method := recovery_method
      success := success
      details := details
      error_type := curErr.map ErrorInfo.error_type
      error_node := curErr.map ErrorInfo.node }
  let histDelta : Option (List ErrorInfo) :=
    match st.error_history with
    | some hist =>
      if !hist.isEmpty then
        some (updateLast (fun e =>
            { e with recovery_attempted := true
                     recovered := some success
                     recovery_method := some recovery_method
                     recovery_timestamp := some now
                     recovery_details :=
                       match details with
                       | some d => if d.isEmpty then e.recovery_details else some d
                       | none => e.recovery_details }) hist)
      else none
    | none => none
  { error := if success then some none else none
    error_history := histDelta
    recovery_info := some rinfo }

/-- The merge of an error-envelope delta into a state, as a plain dictionary
update: a key present in the delta overwrites the state's entry (the envelope
itself builds the full appended history, so `error_history` is carried as a
whole list). -/
def applyDelta (st : EState) (d : EDelta) : EState :=
  { error := match d.error with | some v => some v | none => st.error
    error_history := match d.error_history with | some v => some v | none => st.error_history
    keys := st.keys }

/-- Modelled from the spec: the `Perspectives` structured-output schema — the
bounded collection of analysts produced for one topic (`models/schemas.py` is
not under `src/`). -/
structure Perspectives where
  analysts : List Analyst
deriving DecidableEq, Repr

/-- The outer-graph state fields read by `create_analysts`
(`GenerateAnalystsState`; its schema file `models/schemas.py` is not under
`src/`): topic, `max_analysts`, the optional human feedback, and the
error-envelope fields `record_error` reads. -/
structure GState where
  topic : String
  max_analysts : Nat
  human_analyst_feedback : Option String
  analysts : Option (List Analyst)
  error : Option (Option ErrorInfo)
  error_history : Option (List ErrorInfo)
deriving DecidableEq, Repr

/-- `list(state.keys())` for a `GState` dictionary: the always-present keys
followed by the optional ones that are present. -/
def GState.dictKeys (st : GState) : List String :=
  ["topic", "max_analysts"]
    ++ (match st.human_analyst_feedback with | some _ => ["human_analyst_feedback"] | none => [])
    ++ (match st.analysts with | some _ => ["analysts"] | none => [])
    ++ (match st.error with | some _ => ["error"] | none => [])
    ++ (match st.error_history with | some _ => ["error_history"] | none => [])

/-- The error-envelope view of a `GState`. -/
def GState.toE (st : GState) : EState :=
  { error := st.error, error_history := st.error_history, keys := st.dictKeys }

/-- The partial state update `create_analysts` returns: either only the
`analysts` key, or the error-envelope keys. -/
structure CDelta where
  analysts : Option (List Analyst)
  error : Option (Option ErrorInfo)
  error_history : Option (List ErrorInfo)
deriving DecidableEq, Repr

/-- `create_analysts` (`analyst_nodes.py` lines 7-40): reads topic,
`max_analysts` and the feedback (`state.get('human_analyst_feedback', '')`),
invokes the structured model (prompt formatting and the structured call are
the opaque collaborator `sllm`, applied to topic, feedback and
`max_analysts`), and returns `{"analysts": analysts.analysts}`. The whole
body sits in `try`/`except Exception`: any failure is routed through
`record_error` with node name `"create_analysts"` and the defaults
(severity `"error"`, no context, `add_to_history = True`), and the resulting
delta is returned instead of re-raising. -/
def create_analysts (sllm : String → String → Nat → Except PyErr Perspectives)
    (now : Nat) (st : GState) : CDelta :=
  match sllm st.topic (st.human_analyst_feedback.getD "") st.max_analysts with
  | Except.ok p => { analysts := some p.analysts, error := none, error_history := none }
  | Except.error e =>
    let d := record_error st.toE e "create_analysts" "error" none true now
    { analysts := none, error := d.error, error_history := d.error_history }

/-- Python's `str.lower()`, character-wise on the underlying list. -/
def pyLower (s : String) : String :=
  String.mk (s.toList.map Char.toLower)

/-- A `Send("conduct_interview", {...})` directive spawning one interview
branch: the target node name and the seed state (analyst plus opening
message list). -/
structure SendDirective where
  node : String
  analyst : Analyst
  messages : List Message
deriving DecidableEq, Repr

/-- The value a conditional edge returns: either the name of the next node
or a list of branch-spawn directives. -/
inductive RouteResult where
  | toNode (name : String)
  | sends (l : List SendDirective)
deriving DecidableEq, Repr

/-- The opening human message seeding an interview branch:
`f"So you said you were writing an article on {topic}?"`. -/
def interviewSeedMessage (topic : String) : Message :=
  { role := Role.human
    content := "So you said you were writing an article on " ++ topic ++ "?"
    name := none }

/-- The outer-graph state fields read by `initiate_all_interviews` (the
source annotates the parameter as a plain `dict`). -/
structure ResearchState where
  topic : String
  human_analyst_feedback : Option String
  analysts : List Analyst
deriving DecidableEq, Repr

/-- `initiate_all_interviews` (`analyst_nodes.py` lines 46-67): reads
`state.get('human_analyst_feedback', 'good')`; when its lower-cased value
differs from `"good"` routes to `create_analysts`, otherwise returns one
`Send("conduct_interview", ...)` per analyst, seeded with that analyst and
the single opening human message about the topic. -/
def initiate_all_interviews (st : ResearchState) : RouteResult :=
  let fb := st.human_analyst_feedback.getD "good"
  if pyLower fb != "good" then
    RouteResult.toNode "create_analysts"
  else
    RouteResult.sends (st.analysts.map (fun a =>
      { node := "conduct_interview", analyst := a, messages := [interviewSeedMessage st.topic] }))

/-- A placeholder `ErrorInfo` used only as the out-of-bounds default of heap
reads in the reference-heap model (never reachable in the theorems). -/
def defaultErrorInfo : ErrorInfo :=
  { error_type := "", message := "", node := "", timestamp := 0, severity := ""
    recovery_attempted := false, context := Ctx.given [], stack_trace := none
    recovered := none, recovery_timestamp := none, recovery_method := none
    recovery_details := none }

/-- A heap of `ErrorInfo` dictionary objects, addressed by position: Python
dictionaries are reference values, and `list.copy()` copies the list of
references only, so two lists may share the same entry objects. -/
abbrev Heap := List ErrorInfo

/-- The reference-level view of a state for the aliasing analysis: the
`error_history` key holds a list of heap addresses (or is absent). -/
structure HState where
  error_history : Option (List Nat)
deriving DecidableEq, Repr

/-- The reference-level delta `clear_error` returns. -/
structure HDelta where
  error_history : Option (List Nat)
deriving DecidableEq, Repr

/-- The in-place update `clear_error` performs on the last history entry. -/
def markRecoveredEntry (now : Nat) (e : ErrorInfo) : ErrorInfo :=
  { e with recovery_attempted := true, recovered := some true,
           recovery_timestamp := some now }

/-- `clear_error` (`error_handler.py` lines 80-103) at the reference level:
`error_history = state["error_history"].copy()` copies only the list of
references, and `error_history[-1]["recovery_attempted"] = True` (and the
further assignments) then write through the shared reference, updating the
record on the heap — the same record the input state's history still points
to. Returns the updated heap together with the delta. -/
def clear_error_heap (h : Heap) (st : HState) (mark_recovered : Bool)
    (now : Nat) : Heap × HDelta :=
  match st.error_history with
  | some addrs =>
    if mark_recovered && !addrs.isEmpty then
      let copied := addrs
      match addrs.getLast? with
      | some a => (h.set a (markRecoveredEntry now (h.getD a defaultErrorInfo)),
                   { error_history := some copied })
      | none => (h, { error_history := none })
    else (h, { error_history := none })
  | none => (h, { error_history := none })

/-! ## Theorems -/

/-- A concrete analyst record used by concrete instantiations. -/
def probeAnalyst : Analyst :=
  { name := "Alex", role := "researcher", affiliation := "lab",
    description := "focus", persona := "persona text" }

theorem pyStartsWith_append (s t : String) : pyStartsWith (s ++ t) s = true := by
  simp [pyStartsWith, String.toList, String.data_append, List.isPrefixOf_iff_prefix]

theorem pyStrip_insights_append (rest : String) :
    pyStrip ("## Insights" ++ rest) insChars = pyStrip rest insChars := by
  unfold pyStrip
  have h : ("## Insights" ++ rest).toList = "## Insights".toList ++ rest.toList :=
    String.data_append _ _
  rw [h, List.dropWhile_append_of_pos (by decide)]

/-- C1, corrected. The spec reads the stripping step of `finalize_report` as
a literal prefix removal, but the code calls `content.strip("## Insights")`,
Python's character-set strip: when `content` starts with `"## Insights"`, all
leading and trailing characters drawn from the character set of
`"## Insights"` are removed — equivalently, the prefix is removed and the
remainder is itself stripped over that set on both ends; content not
beginning with the prefix is left unchanged. -/
theorem stripInsights_charset_strip (rest c : String)
    (h : ¬ pyStartsWith c "## Insights" = true) :
    stripInsights ("## Insights" ++ rest) = pyStrip rest insChars
  ∧ stripInsights c = c := by
  constructor
  · rw [stripInsights, if_pos (pyStartsWith_append "## Insights" rest),
      pyStrip_insights_append]
  · rw [stripInsights, if_neg h]

theorem stripInsights_charset_strip_witness :
    stripInsights ("## Insights" ++ " today") = pyStrip " today" insChars
  ∧ stripInsights "abc" = "abc" :=
  stripInsights_charset_strip " today" "abc" (by decide)

/-- C1, counterexample to the claim as stated: on
`content = "## Insights today"` the code strips through the blank and the `t`
after the prefix (both belong to the character set of `"## Insights"`),
producing body `"oday"`, not the `" today"` a literal prefix removal would
leave. -/
theorem stripInsights_charset_counterexample :
    finalize_report { introduction := "I", content := "## Insights today", conclusion := "C" }
      = "I\n\n---\n\noday\n\n---\n\nC"
  ∧ finalize_report { introduction := "I", content := "## Insights today", conclusion := "C" }
      ≠ "I\n\n---\n\n today\n\n---\n\nC" := by
  decide

/-- C2, corrected (amended). With fewer than two messages and an
expert-answer count below `max_num_turns`, `route_messages` reaches
`messages[-2]`, which raises `IndexError` (result `none` in this embedding)
instead of returning `"ask_question"`. -/
theorem route_messages_short_raises (st : InterviewState) (name : String)
    (hlen : st.messages.length < 2)
    (hturns : num_responses st.messages name < st.max_num_turns.getD 2) :
    route_messages st name = none := by
  unfold route_messages
  rw [if_neg (Nat.not_le.mpr hturns)]
  unfold pyIdxNeg2
  rw [if_pos hlen]

theorem route_messages_short_raises_witness :
    route_messages ⟨probeAnalyst, [], [], none⟩ "expert" = none :=
  route_messages_short_raises _ "expert" (by decide) (by decide)

/-- C2, counterexample to the claim as stated: on a one-message state whose
expert count is below the default `max_num_turns = 2`, `route_messages` does
not return `"ask_question"` — the `messages[-2]` access raises. -/
theorem route_messages_empty_counterexample :
    route_messages ⟨probeAnalyst, [⟨Role.human, "hi", none⟩], [], none⟩ "expert" = none
  ∧ route_messages ⟨probeAnalyst, [⟨Role.human, "hi", none⟩], [], none⟩ "expert"
      ≠ some "ask_question" := by
  decide

/-- C3, corrected (amended). `generate_question` has no `try`/`except`: when
the opaque model call fails, the failure propagates out of the node unchanged
— no Error Envelope delta is produced and the node does not return. -/
theorem generate_question_propagates (llm : List Message → Except PyErr Message)
    (qfmt : String → String) (st : InterviewState) (e : PyErr)
    (h : llm ({ role := Role.system, content := qfmt st.analyst.persona, name := none }
        :: st.messages) = Except.error e) :
    generate_question llm qfmt st = Except.error e := by
  unfold generate_question
  rw [h]

theorem generate_question_propagates_witness :
    generate_question (fun _ => Except.error (PyErr.str "boom")) (fun s => s)
      ⟨probeAnalyst, [], [], none⟩
      = Except.error (PyErr.str "boom") :=
  generate_question_propagates _ _ _ _ rfl

/-- C3, counterexample to the claim as stated: with a model collaborator that
raises (here a timeout), `generate_question` evaluates to the propagated
failure, not to a returned error delta. -/
theorem generate_question_propagates_counterexample :
    generate_question (fun _ => Except.error (PyErr.exc "Timeout" "timed out" "tb"))
      (fun s => s) ⟨probeAnalyst, [], [], none⟩
      = Except.error (PyErr.exc "Timeout" "timed out" "tb") :=
  rfl

/-- A concrete error record (with `recovery_attempted = False`) for the
aliasing analysis of `clear_error`. -/
def c4Info : ErrorInfo :=
  { error_type := "ValueError", message := "bad value", node := "create_analysts",
    timestamp := 3, severity := "error", recovery_attempted := false,
    context := Ctx.given [], stack_trace := none, recovered := none,
    recovery_timestamp := none, recovery_method := none, recovery_details := none }

/-- C4, code bug. On a state whose `error_history` holds one error record
(address 0 on the heap, `recovery_attempted = False`), `clear_error` shallow-
copies the history list (`.copy()` copies references only) and then assigns
into `error_history[-1]`, writing through the shared reference: afterwards
the record the *input* state's history still points to has
`recovery_attempted = True`, and the returned delta aliases the very same
record addresses — contradicting the contract that the envelope functions
are side-effect-free on their input (the `.copy()` call shows that contract
is what the code intends). `record_recovery` mutates the same way. -/
theorem clear_error_heap_mutates_input :
    ((clear_error_heap [c4Info] ⟨some [0]⟩ true 7).1.getD 0 defaultErrorInfo).recovery_attempted
      = true
  ∧ c4Info.recovery_attempted = false
  ∧ (clear_error_heap [c4Info] ⟨some [0]⟩ true 7).2.error_history = some [0] := by
  decide

theorem pyIdxNeg2_two_le (l : List Message) (h : 2 ≤ l.length) :
    pyIdxNeg2 l = some (l.getD (l.length - 2) ⟨Role.system, "", none⟩) := by
  unfold pyIdxNeg2
  rw [if_neg (by omega)]
  have hlt : l.length - 2 < l.length := by omega
  simp [List.get?_eq_getElem?, List.getD_eq_getElem?_getD, List.getElem?_eq_getElem hlt]

/-- C5, confirmed. On a state with at least two messages, `route_messages`
returns `"save_interview"` whenever the count of expert-authored messages
reaches `max_num_turns` (default 2) regardless of content; below that bound
it returns `"save_interview"` exactly when the second-to-last message's text
contains the literal phrase `"Thank you so much for your help"`, and
`"ask_question"` otherwise. -/
theorem route_messages_two_or_more_spec (st : InterviewState) (name : String)
    (h2 : 2 ≤ st.messages.length) :
    (st.max_num_turns.getD 2 ≤ num_responses st.messages name →
        route_messages st name = some "save_interview")
  ∧ (num_responses st.messages name < st.max_num_turns.getD 2 →
      strContains (st.messages.getD (st.messages.length - 2) ⟨Role.system, "", none⟩).content
          "Thank you so much for your help" = true →
        route_messages st name = some "save_interview")
  ∧ (num_responses st.messages name < st.max_num_turns.getD 2 →
      strContains (st.messages.getD (st.messages.length - 2) ⟨Role.system, "", none⟩).content
          "Thank you so much for your help" = false →
        route_messages st name = some "ask_question") := by
  refine ⟨fun hmax => ?_, fun hlt hph => ?_, fun hlt hph => ?_⟩
  · unfold route_messages
    rw [if_pos hmax]
  · unfold route_messages
    rw [if_neg (Nat.not_le.mpr hlt), pyIdxNeg2_two_le st.messages h2]
    simp
    simpa [List.getD_eq_getElem?_getD] using hph
  · unfold route_messages
    rw [if_neg (Nat.not_le.mpr hlt), pyIdxNeg2_two_le st.messages h2]
    simp
    simpa [List.getD_eq_getElem?_getD] using hph

theorem route_messages_two_or_more_spec_witness :
    route_messages ⟨probeAnalyst,
      [⟨Role.ai, "a1", some "expert"⟩, ⟨Role.ai, "a2", some "expert"⟩], [], none⟩
      "expert" = some "save_interview" :=
  (route_messages_two_or_more_spec _ "expert" (by decide)).1 (by decide)

/-- C6, confirmed. With at least one analyst, `initiate_all_interviews`
spawns exactly one `Send("conduct_interview", ...)` per analyst — each seeded
with that analyst and the single opening human message about the topic —
whenever the feedback is absent or lower-cases to `"good"`; when feedback is
present and is any other string it routes to `"create_analysts"` and spawns
no branch. -/
theorem initiate_all_interviews_spec (st : ResearchState)
    (hN : 1 ≤ st.analysts.length) :
    ((st.human_analyst_feedback = none ∨ st.human_analyst_feedback.map pyLower = some "good") →
      ∃ l, initiate_all_interviews st = RouteResult.sends l
        ∧ l.length = st.analysts.length
        ∧ ∀ i (h : i < l.length) (h' : i < st.analysts.length),
            l.get ⟨i, h⟩ = { node := "conduct_interview", analyst := st.analysts.get ⟨i, h'⟩,
                             messages := [interviewSeedMessage st.topic] })
  ∧ (∀ f, st.human_analyst_feedback = some f → ¬ pyLower f = "good" →
      initiate_all_interviews st = RouteResult.toNode "create_analysts") := by
  constructor
  · intro hfb
    have hfb' : pyLower (st.human_analyst_feedback.getD "good") = "good" := by
      rcases hfb with hnone | hsome
      · rw [hnone]
        decide
      · rcases hmap : st.human_analyst_feedback with _ | f
        · rw [hmap] at hsome
          simp at hsome
        · rw [hmap] at hsome
          simp at hsome
          simpa using hsome
    refine ⟨st.analysts.map (fun a =>
      { node := "conduct_interview", analyst := a,
        messages := [interviewSeedMessage st.topic] }), ?_, by simp, ?_⟩
    · simp [initiate_all_interviews, hfb']
    · intro i h h'
      simp [List.get_eq_getElem]
  · intro f hf hne
    unfold initiate_all_interviews
    rw [hf]
    simp [hne]

theorem initiate_all_interviews_spec_witness :
    ∃ l, initiate_all_interviews ⟨"AI safety", none, [probeAnalyst]⟩ = RouteResult.sends l
      ∧ l.length = (⟨"AI safety", none, [probeAnalyst]⟩ : ResearchState).analysts.length
      ∧ ∀ i (h : i < l.length)
          (h' : i < (⟨"AI safety", none, [probeAnalyst]⟩ : ResearchState).analysts.length),
          l.get ⟨i, h⟩ = { node := "conduct_interview",
                           analyst := (⟨"AI safety", none, [probeAnalyst]⟩ : ResearchState).analysts.get ⟨i, h'⟩,
                           messages := [interviewSeedMessage "AI safety"] } :=
  (initiate_all_interviews_spec _ (by decide)).1 (Or.inl rfl)

/-- The `recovered` flag of the last `error_history` entry of a delta:
`none` when the delta carries no history. -/
def lastRecovered (d : EDelta) : Option (Option Bool) :=
  (d.error_history.bind (fun l => l.getLast?)).map ErrorInfo.recovered

theorem updateLast_getLast? (f : ErrorInfo → ErrorInfo) :
    ∀ l : List ErrorInfo, l ≠ [] → (updateLast f l).getLast? = l.getLast?.map f := by
  intro l
  induction l with
  | nil => intro h; exact absurd rfl h
  | cons a t ih =>
    intro _
    cases t with
    | nil => simp [updateLast]
    | cons b rest =>
      have h1 := ih (by simp)
      rw [show updateLast f (a :: b :: rest) = a :: updateLast f (b :: rest) from rfl]
      obtain ⟨c, cs, hcs⟩ : ∃ c cs, updateLast f (b :: rest) = c :: cs := by
        cases rest <;> exact ⟨_, _, rfl⟩
      rw [hcs, List.getLast?_cons_cons, ← hcs, h1, List.getLast?_cons_cons]

theorem record_recovery_on_hist (st1 : EState) (l : List ErrorInfo)
    (hl : st1.error_history = some l) (hne : l ≠ [])
    (method : String) (success : Bool) (details : Option String) (n2 : Nat) :
    (record_recovery st1 method success details n2).error
      = (if success then some none else none)
  ∧ lastRecovered (record_recovery st1 method success details n2) = some (some success) := by
  have hemp : l.isEmpty = false := by
    simp [List.isEmpty_iff, hne]
  obtain ⟨e, he⟩ : ∃ e, l.getLast? = some e := by
    cases hl' : l.getLast? with
    | none => exact absurd (List.getLast?_eq_none_iff.mp hl') hne
    | some x => exact ⟨x, rfl⟩
  constructor
  · simp [record_recovery]
  · simp only [record_recovery, hl, hemp, lastRecovered]
    simp [updateLast_getLast? _ l hne, he]

/-- C7, confirmed. On a state whose `error_history` is present and non-empty,
`record_error` followed (after the delta is merged) by
`record_recovery(success=True)` yields a delta whose `error` key is present
with value `None` and whose last `error_history` entry has
`recovered = True`; with `success=False` the delta has no `error` key at all
(so a merged state keeps its error) and the last entry has
`recovered = False`. -/
theorem record_error_then_record_recovery (st : EState) (err : PyErr) (node : String)
    (n1 n2 : Nat) (method : String) (details : Option String)
    (hist : List ErrorInfo) (hh : st.error_history = some hist) (hne : hist ≠ []) :
    (record_recovery (applyDelta st (record_error st err node "error" none true n1))
        method true details n2).error = some none
  ∧ lastRecovered (record_recovery (applyDelta st (record_error st err node "error" none true n1))
        method true details n2) = some (some true)
  ∧ (record_recovery (applyDelta st (record_error st err node "error" none true n1))
        method false details n2).error = none
  ∧ lastRecovered (record_recovery (applyDelta st (record_error st err node "error" none true n1))
        method false details n2) = some (some false) := by
  have h1 : (applyDelta st (record_error st err node "error" none true n1)).error_history
      = some (hist ++ [mkErrorInfo st err node "error" none n1]) := by
    simp [applyDelta, record_error, hh]
  have hne1 : hist ++ [mkErrorInfo st err node "error" none n1] ≠ [] := by
    simp
  have ht := record_recovery_on_hist _ _ h1 hne1 method true details n2
  have hf := record_recovery_on_hist _ _ h1 hne1 method false details n2
  refine ⟨?_, ht.2, ?_, hf.2⟩
  · rw [ht.1]
    rfl
  · rw [hf.1]
    rfl

theorem record_error_then_record_recovery_witness :
    (record_recovery (applyDelta ⟨none, some [c4Info], ["error_history"]⟩
        (record_error ⟨none, some [c4Info], ["error_history"]⟩ (PyErr.str "oops") "n" "error" none true 1))
        "retry" true none 2).error = some none
  ∧ lastRecovered (record_recovery (applyDelta ⟨none, some [c4Info], ["error_history"]⟩
        (record_error ⟨none, some [c4Info], ["error_history"]⟩ (PyErr.str "oops") "n" "error" none true 1))
        "retry" true none 2) = some (some true)
  ∧ (record_recovery (applyDelta ⟨none, some [c4Info], ["error_history"]⟩
        (record_error ⟨none, some [c4Info], ["error_history"]⟩ (PyErr.str "oops") "n" "error" none true 1))
        "retry" false none 2).error = none
  ∧ lastRecovered (record_recovery (applyDelta ⟨none, some [c4Info], ["error_history"]⟩
        (record_error ⟨none, some [c4Info], ["error_history"]⟩ (PyErr.str "oops") "n" "error" none true 1))
        "retry" false none 2) = some (some false) :=
  record_error_then_record_recovery ⟨none, some [c4Info], ["error_history"]⟩
    (PyErr.str "oops") "n" 1 2 "retry" none [c4Info] rfl (by decide)

/-- C8, confirmed. The `finalize_report` round-trip: on
`content = "## Insights\nBody\n## Sources\nSrc1"` with introduction
`"Intro"` and conclusion `"End"` the result is exactly
`"Intro\n\n---\n\n\nBody\n\n---\n\nEnd\n\n## Sources\nSrc1"`; and whenever
`content` contains the marker word `"## Sources"` but the (stripped) content
does not split into exactly two parts on `"\n## Sources\n"`, the tuple
unpacking raises, the `except` arm sets `sources = None`, and the report is
assembled without a sources section instead of failing. -/
theorem finalize_report_roundtrip :
    finalize_report ⟨"Intro", "## Insights\nBody\n## Sources\nSrc1", "End"⟩
      = "Intro\n\n---\n\n\nBody\n\n---\n\nEnd\n\n## Sources\nSrc1"
  ∧ ∀ st : RState, strContains st.content "## Sources" = true →
      (pySplit (stripInsights st.content) "\n## Sources\n").length ≠ 2 →
      finalize_report st = st.introduction ++ "\n\n---\n\n" ++ stripInsights st.content
        ++ "\n\n---\n\n" ++ st.conclusion := by
  constructor
  · decide
  · intro st _ hsplit
    by_cases hc : strContains (stripInsights st.content) "## Sources" = true
    · rcases hs : pySplit (stripInsights st.content) "\n## Sources\n" with _ | ⟨a, t⟩
      · simp [finalize_report, hc, hs]
      · rcases t with _ | ⟨b, t2⟩
        · simp [finalize_report, hc, hs]
        · rcases t2 with _ | ⟨c, t3⟩
          · exact absurd (by rw [hs]; rfl) hsplit
          · simp [finalize_report, hc, hs]
    · have hc' : strContains (stripInsights st.content) "## Sources" = false := by
        cases hx : strContains (stripInsights st.content) "## Sources" with
        | false => rfl
        | true => exact absurd hx hc
      simp [finalize_report, hc']

theorem finalize_report_roundtrip_witness :
    finalize_report ⟨"I", "x## Sourcesy", "C"⟩
      = "I" ++ "\n\n---\n\n" ++ stripInsights "x## Sourcesy" ++ "\n\n---\n\n" ++ "C" :=
  finalize_report_roundtrip.2 ⟨"I", "x## Sourcesy", "C"⟩ (by decide) (by decide)

/-- C9, confirmed. Whatever the input state: when any step of
`create_analysts` raises (in this embedding, the structured model call
fails), the node returns the Error Envelope delta — no `analysts` key, an
`error` record whose node is `"create_analysts"` with severity `"error"`,
and the state's `error_history` with that record appended — instead of
propagating; when nothing raises it returns a delta containing only the
`analysts` key. -/
theorem create_analysts_error_envelope
    (sllm : String → String → Nat → Except PyErr Perspectives) (now : Nat) (st : GState) :
    (∀ e, sllm st.topic (st.human_analyst_feedback.getD "") st.max_analysts = Except.error e →
      ∃ info, create_analysts sllm now st
          = { analysts := none, error := some (some info),
              error_history := some ((st.error_history.getD []) ++ [info]) }
        ∧ info.node = "create_analysts" ∧ info.severity = "error")
  ∧ (∀ p, sllm st.topic (st.human_analyst_feedback.getD "") st.max_analysts = Except.ok p →
      create_analysts sllm now st
        = { analysts := some p.analysts, error := none, error_history := none }) := by
  constructor
  · intro e he
    refine ⟨mkErrorInfo st.toE e "create_analysts" "error" none now, ?_, rfl, rfl⟩
    simp [create_analysts, he, record_error, GState.toE]
  · intro p hp
    simp [create_analysts, hp]

theorem create_analysts_error_envelope_witness :
    ∃ info, create_analysts (fun _ _ _ => Except.error (PyErr.str "rate limit")) 5
        ⟨"climate", 3, none, none, none, none⟩
        = { analysts := none, error := some (some info), error_history := some [info] }
      ∧ info.node = "create_analysts" ∧ info.severity = "error" :=
  (create_analysts_error_envelope (fun _ _ _ => Except.error (PyErr.str "rate limit")) 5
    ⟨"climate", 3, none, none, none, none⟩).1 (PyErr.str "rate limit") rfl

/-- C10, confirmed. The expert-turn counter of `route_messages` counts a
message exactly when it is an AI message whose name tag equals the expert
name: prepending a message that is not AI-role or not tagged with that name
leaves the count unchanged, and prepending an AI message tagged with the
name raises it by one — so human or system messages tagged "expert", and AI
messages with a different or absent name, never count toward
`max_num_turns`. -/
theorem num_responses_counts_only_expert_ai (msgs : List Message) (m : Message) (n : String) :
    (m.role ≠ Role.ai ∨ m.name ≠ some n →
      num_responses (m :: msgs) n = num_responses msgs n)
  ∧ (m.role = Role.ai ∧ m.name = some n →
      num_responses (m :: msgs) n = num_responses msgs n + 1) := by
  constructor
  · intro h
    have hb : (m.role == Role.ai && m.name == some n) = false := by
      rcases h with h | h <;> simp [h]
    simp [num_responses, List.filter_cons, hb]
  · intro h
    have hb : (m.role == Role.ai && m.name == some n) = true := by
      simp [h.1, h.2]
    simp [num_responses, List.filter_cons, hb]

theorem num_responses_counts_only_expert_ai_witness :
    num_responses [⟨Role.human, "tagged expert but human", some "expert"⟩] "expert"
      = num_responses [] "expert" :=
  (num_responses_counts_only_expert_ai [] ⟨Role.human, "tagged expert but human", some "expert"⟩
    "expert").1 (Or.inl (by decide))

end LGR
